import Mathlib

set_option autoImplicit false

/-!
Verification of the GDCF (Geometry Dash Caching Framework) core against its
specification.  The definitions below are a shallow embedding of the Rust
sources (gdcf/src/lib.rs, gdcf/src/upgrade/mod.rs, gdcf/src/upgrade/level.rs,
gdcf_model/src/lib.rs, gdcf_parse/src/level.rs).  Collaborator code that is
not part of the provided sources (the cache trait implementation in
gdcf/src/cache.rs, the future combinators in gdcf/src/future.rs, the parse
utilities in gdcf_parse/src/util.rs) is modelled from the specification and
marked as such in the corresponding doc comments.
-/

namespace Gdcf

/--
`CacheEntry<T, M>`: the tagged union describing the state of a cached value.
The four variants are fixed by their uses in gdcf/src/lib.rs and
gdcf/src/upgrade/mod.rs (the defining module gdcf/src/cache.rs is not among
the provided sources): `Missing`, `Cached(T, M)`, `MarkedAbsent(M)`,
`DeducedAbsent`.
-/
inductive CacheEntry (T M : Type) where
  | Missing
  | Cached (value : T) (meta : M)
  | MarkedAbsent (meta : M)
  | DeducedAbsent
  deriving DecidableEq

/--
Modelled from the spec: `CacheEntry::is_expired` (gdcf/src/cache.rs is not
among the provided sources).  Spec section 4.B: true for `Cached` and
`MarkedAbsent` whose meta is expired, false for `DeducedAbsent`, true for
`Missing`.  Expiry of a meta value depends only on the meta (stored_at and
the configured TTL, spec section 3), abstracted here as a predicate `isExp`.
-/
def CacheEntry.is_expired {T M : Type} (isExp : M → Bool) : CacheEntry T M → Bool
  | .Missing => true
  | .Cached _ m => isExp m
  | .MarkedAbsent m => isExp m
  | .DeducedAbsent => false

/--
`GameVersion` from gdcf_model/src/lib.rs: either `Unknown` (string
representation "10") or `Version { minor, major }`.
-/
inductive GameVersion where
  | Unknown
  | Version (minor major : Nat)
  deriving DecidableEq

/--
`impl From<u8> for GameVersion` (gdcf_model/src/lib.rs lines 30-41): the
value 10 becomes `Unknown`, any other byte `v` becomes
`Version { major: v / 10, minor: v % 10 }`.  Bytes are embedded as `Nat`
with the range bound `v < 256` carried by the theorems.
-/
def GameVersion.fromU8 (v : Nat) : GameVersion :=
  if v = 10 then .Unknown else .Version (v % 10) (v / 10)

/--
`impl Into<u8> for GameVersion` (gdcf_model/src/lib.rs lines 43-50):
`Unknown` becomes 10 and `Version { minor, major }` becomes
`major * 10 + minor`, computed in `u8` (hence the explicit `% 256`; for
values produced by `fromU8` the product never overflows).
-/
def GameVersion.intoU8 : GameVersion → Nat
  | .Unknown => 10
  | .Version minor major => (major * 10 + minor) % 256

/--
`parse_description` from gdcf_parse/src/level.rs lines 36-42.  The helpers
`encode_url` and `b64_decode_string` live in gdcf_parse's util module, which
is not among the provided sources; they are abstract parameters here
(`encode_url` is total on Rust string slices, `b64_decode_string` is
fallible).  On decode failure the raw input is returned unchanged, on
success the decoded string is returned; both wrapped in `Some`.
-/
def parse_description {DecodeErr : Type} (encode_url : String → String)
    (b64_decode_string : String → Except DecodeErr String) (value : String) : Option String :=
  match b64_decode_string (encode_url value) with
  | .error _ => some value
  | .ok f => some f

/--
A request as the processor sees it: opaque parameters plus the
`force_refresh` transport flag (spec section 3; `set_force_refresh` is
called in gdcf/src/upgrade/mod.rs line 113).
-/
structure RequestState (P : Type) where
  params : P
  force_refresh : Bool
  deriving DecidableEq

/-- `EitherOrBoth<A, B>` from gdcf/src/lib.rs lines 217-221. -/
inductive EitherOrBoth (α β : Type) where
  | A (a : α)
  | B (b : β)
  | Both (a : α) (b : β)
  deriving DecidableEq

/--
The three-state outcome of processing a request: the variants of
`GdcfFuture` used in gdcf/src/lib.rs lines 356-358 (`UpToDate`, `Uncached`,
`Outdated`), which is also the variant set of `ProcessRequestFutureState`
matched in gdcf/src/upgrade/mod.rs lines 116-162.  `F` is the type of the
refresh future.
-/
inductive GdcfFuture (T M F : Type) where
  | UpToDate (entry : CacheEntry T M)
  | Uncached (future : F)
  | Outdated (entry : CacheEntry T M) (future : F)
  deriving DecidableEq

/--
`Gdcf::process` (gdcf/src/lib.rs lines 283-345).  `lookup_request` embeds
`self.cache.lookup_request(&request)` (a collaborator), `make_future`
embeds the construction of the refresh future
(`self.client().make(request)` followed by the store logic) — each call to
`process` builds a fresh future.  The decision structure is exactly the
source's: a cache error propagates; `Missing` yields only the future
(`EitherOrBoth::B`); any other entry yields `Both(entry, future)` when the
entry is expired and `A(entry)` (an immediate return, no future) otherwise.
Note that the source never consults `request.force_refresh`.
-/
def process {P T M CErr F : Type} (isExp : M → Bool)
    (lookup_request : RequestState P → Except CErr (CacheEntry T M))
    (make_future : RequestState P → F)
    (request : RequestState P) : Except CErr (EitherOrBoth (CacheEntry T M) F) :=
  match lookup_request request with
  | .error e => .error e
  | .ok .Missing => .ok (.B (make_future request))
  | .ok entry =>
    if entry.is_expired isExp then .ok (.Both entry (make_future request))
    else .ok (.A entry)

/--
`Gdcf::process_request` (gdcf/src/lib.rs lines 354-360): maps the
`EitherOrBoth` produced by `process` onto the `GdcfFuture` variants
(`A ↦ UpToDate`, `B ↦ Uncached`, `Both ↦ Outdated`).
-/
def process_request {P T M CErr F : Type} (isExp : M → Bool)
    (lookup_request : RequestState P → Except CErr (CacheEntry T M))
    (make_future : RequestState P → F)
    (request : RequestState P) : Except CErr (GdcfFuture T M F) :=
  match process isExp lookup_request make_future request with
  | .error e => .error e
  | .ok (.A entry) => .ok (.UpToDate entry)
  | .ok (.B future) => .ok (.Uncached future)
  | .ok (.Both entry future) => .ok (.Outdated entry future)

/--
Number of refresh tasks spawned by one `process_request` outcome: the
`Uncached` and `Outdated` outcomes each carry one freshly built refresh
future (which performs exactly one `ApiClient::make` call,
gdcf/src/lib.rs line 321), the `UpToDate` outcome carries none.
-/
def refreshTasksSpawned {T M F CErr : Type} (res : Except CErr (GdcfFuture T M F)) : Nat :=
  match res with
  | .ok (.Uncached _) => 1
  | .ok (.Outdated _ _) => 1
  | _ => 0

/--
Total number of `ApiClient::make` invocations observed when `n` concurrent
requests for the same fingerprint are processed by one `Gdcf` instance
under the schedule in which all cache lookups happen before any refresh
task commits a write.  That schedule is legal because `Gdcf` holds no
shared in-flight state whatsoever (its only fields are `client` and
`cache`, gdcf/src/lib.rs lines 189-197), so the `n` calls cannot observe
each other and all see the same lookup result.
-/
def concurrentMakeInvocations {P T M CErr F : Type} (isExp : M → Bool)
    (lookup_request : RequestState P → Except CErr (CacheEntry T M))
    (make_future : RequestState P → F)
    (request : RequestState P) (n : Nat) : Nat :=
  ((List.replicate n request).map
    (fun r => refreshTasksSpawned (process_request isExp lookup_request make_future r))).sum

/--
A Newgrounds song, reduced to the fields the embedded code reads:
`song_id` (used as the store key in gdcf/src/lib.rs line 254) and a name
(gdcf_model/src/song.rs is not among the provided sources).
-/
structure NewgroundsSong where
  song_id : Nat
  name : String
  deriving DecidableEq

/--
A creator, reduced to the fields the embedded code reads: `user_id` (the
store key, gdcf/src/lib.rs line 255), a name, and the optional `account_id`
read by the upgrade impls (gdcf_model/src/user.rs is not among the provided
sources).
-/
structure Creator where
  user_id : Nat
  name : String
  account_id : Option Nat
  deriving DecidableEq

/-- `Secondary` from gdcf/src/lib.rs lines 140-145. -/
inductive Secondary where
  | NewgroundsSong (song : NewgroundsSong)
  | Creator (creator : Creator)
  | MissingCreator (id : Nat)
  | MissingNewgroundsSong (id : Nat)
  deriving DecidableEq

/--
A committed cache write, used to record the order of store operations
performed by a refresh.  `K` is the primary request key type, `V` the
primary result type.  The first four constructors are the per-variant
stores of gdcf/src/lib.rs lines 253-258, the last two the primary
`store`/`mark_absent` on the request key.
-/
inductive StoreEvent (K V : Type) where
  | storeSong (id : Nat) (song : NewgroundsSong)
  | storeCreator (id : Nat) (creator : Creator)
  | markAbsentCreator (id : Nat)
  | markAbsentSong (id : Nat)
  | storePrimary (key : K) (value : V)
  | markAbsentPrimary (key : K)
  deriving DecidableEq

/--
Modelled from the spec: the unified error taxonomy (gdcf/src/error.rs is
not among the provided sources; the variants `Api`, `Cache` and
`ConsistencyAssumptionViolated` are fixed by their uses in gdcf/src/lib.rs
and gdcf/src/upgrade/mod.rs, spec section 7).
-/
inductive GdcfError (AErr CErr : Type) where
  | Api (e : AErr)
  | Cache (e : CErr)
  | ConsistencyAssumptionViolated
  | NoneVariant
  deriving DecidableEq

/-- `Response` from the api client: `Exact(T)` or `More(T, Vec<Secondary>)`. -/
inductive Response (T : Type) where
  | Exact (t : T)
  | More (t : T) (secondaries : List Secondary)
  deriving DecidableEq

/--
One store primitive: consults the (collaborator-supplied) failure oracle
`errF`; on success the event is appended to the trace and a fresh meta is
minted from the logical commit time (the trace length).  A failed store
commits nothing.
-/
def applyStore {K V CErr M : Type} (errF : StoreEvent K V → Option CErr) (metaF : Nat → M)
    (trace : List (StoreEvent K V)) (ev : StoreEvent K V) :
    Except CErr (List (StoreEvent K V) × M) :=
  match errF ev with
  | some e => .error e
  | none => .ok (trace ++ [ev], metaF trace.length)

/--
The store operation chosen for one secondary object, from the match in
gdcf/src/lib.rs lines 253-258: songs are stored under `song_id`, creators
under `user_id`, and the `Missing*` variants become `mark_absent` on the
respective id.
-/
def secondaryEvent {K V : Type} : Secondary → StoreEvent K V
  | .NewgroundsSong song => .storeSong song.song_id song
  | .Creator creator => .storeCreator creator.user_id creator
  | .MissingCreator id => .markAbsentCreator id
  | .MissingNewgroundsSong id => .markAbsentSong id

/--
The secondary-store loop of gdcf/src/lib.rs lines 252-260: stores each
secondary in order, stopping at (and returning) the first cache error;
earlier commits remain in the trace.
-/
def storeSecondaries {K V CErr M : Type} (errF : StoreEvent K V → Option CErr) (metaF : Nat → M) :
    List Secondary → List (StoreEvent K V) → List (StoreEvent K V) × Option CErr
  | [], trace => (trace, none)
  | s :: rest, trace =>
    match applyStore errF metaF trace (secondaryEvent s) with
    | .error e => (trace, some e)
    | .ok (trace2, _) => storeSecondaries errF metaF rest trace2

/--
`Gdcf::refresh` (gdcf/src/lib.rs lines 229-281), given the result of
`ApiClient::make` for the request.  `Exact` stores the primary under the
request key and resolves to `Cached`; `More` first stores every secondary
(gdcf/src/lib.rs lines 252-260) and then the primary; an api error whose
`is_no_result()` holds is recovered into `mark_absent(key)` +
`MarkedAbsent` (the `or_else` at lines 269-280), every other error is
returned as-is.  The second component is the resulting store trace.
-/
def refresh {K V AErr CErr M : Type} (is_no_result : AErr → Bool)
    (errF : StoreEvent K V → Option CErr) (metaF : Nat → M) (key : K)
    (make_result : Except AErr (Response V)) (trace : List (StoreEvent K V)) :
    Except (GdcfError AErr CErr) (CacheEntry V M) × List (StoreEvent K V) :=
  match make_result with
  | .error err =>
    if is_no_result err then
      match applyStore errF metaF trace (.markAbsentPrimary key) with
      | .ok (trace2, m) => (.ok (.MarkedAbsent m), trace2)
      | .error ce => (.error (.Cache ce), trace)
    else (.error (.Api err), trace)
  | .ok (.Exact w) =>
    match applyStore errF metaF trace (.storePrimary key w) with
    | .ok (trace2, m) => (.ok (.Cached w m), trace2)
    | .error ce => (.error (.Cache ce), trace)
  | .ok (.More w excess) =>
    match storeSecondaries errF metaF excess trace with
    | (trace2, some ce) => (.error (.Cache ce), trace2)
    | (trace2, none) =>
      match applyStore errF metaF trace2 (.storePrimary key w) with
      | .ok (trace3, m) => (.ok (.Cached w m), trace3)
      | .error ce => (.error (.Cache ce), trace2)

/--
One `Upgrade` edge (the trait of gdcf/src/upgrade/mod.rs lines 13-37): the
secondary request to issue (if any), the default value to splice on
absence (if any), the cache lookup of the upgrade value, and the pure
splice/unsplice pair.
-/
structure UpgradeEdge (S Carry Into Upg Req ReqRes Cch CErr : Type) where
  upgrade_request : S → Option Req
  default_upgrade : Option Upg
  lookup_upgrade : S → Cch → ReqRes → Except CErr Upg
  upgrade : S → Upg → Into × Carry
  downgrade : Into → Carry → S × Upg

/-- `UpgradeMode` from gdcf/src/upgrade/mod.rs lines 39-48. -/
inductive UpgradeMode (S Upg Into Fut : Type) where
  | UpgradeCached (into : Into)
  | UpgradeOutdated (to_extend : S) (upg : Upg) (future : Fut)
  | UpgradeMissing (to_extend : S) (future : Fut)
  deriving DecidableEq

/-- `UpgradeMode::cached` (gdcf/src/upgrade/mod.rs lines 78-80). -/
def UpgradeMode.cached {S Carry Into Upg Req ReqRes Cch CErr Fut : Type}
    (E : UpgradeEdge S Carry Into Upg Req ReqRes Cch CErr) (to_upgrade : S) (upg : Upg) :
    UpgradeMode S Upg Into Fut :=
  .UpgradeCached (E.upgrade to_upgrade upg).1

/--
`UpgradeMode::default_upgrade` (gdcf/src/upgrade/mod.rs lines 82-88):
splice the default upgrade, failing with `ConsistencyAssumptionViolated`
when the edge has no default.
-/
def UpgradeMode.default_upgrade {S Carry Into Upg Req ReqRes Cch AErr CErr Fut : Type}
    (E : UpgradeEdge S Carry Into Upg Req ReqRes Cch CErr) (to_upgrade : S) :
    Except (GdcfError AErr CErr) (UpgradeMode S Upg Into Fut) :=
  match E.default_upgrade with
  | none => .error .ConsistencyAssumptionViolated
  | some d => .ok (.UpgradeCached (E.upgrade to_upgrade d).1)

/--
`UpgradeMode::new` (gdcf/src/upgrade/mod.rs lines 104-166).  `proc` embeds
`gdcf.process(&request)` and `refreshF` embeds `gdcf.refresh(&request)`
(both methods of the `Gdcf` context).  The two `unreachable!()` arms for a
`Missing` entry inside `UpToDate`/`Outdated` are modelled as `none`.
-/
def UpgradeMode.new {S Carry Into Upg Req ReqRes Cch AErr CErr M Fut : Type}
    (E : UpgradeEdge S Carry Into Upg Req ReqRes Cch CErr) (to_upgrade : S) (cache : Cch)
    (proc : Req → Except CErr (GdcfFuture ReqRes M Fut))
    (refreshF : Req → Fut) (set_force_refresh : Req → Req) (force_refresh : Bool) :
    Option (Except (GdcfError AErr CErr) (UpgradeMode S Upg Into Fut)) :=
  match E.upgrade_request to_upgrade with
  | none => some (UpgradeMode.default_upgrade E to_upgrade)
  | some request0 =>
    let request := if force_refresh then set_force_refresh request0 else request0
    match proc request with
    | .error ce => some (.error (.Cache ce))
    | .ok (.UpToDate .Missing) => none
    | .ok (.Outdated .Missing _) => none
    | .ok (.UpToDate .DeducedAbsent) | .ok (.UpToDate (.MarkedAbsent _)) =>
      match E.default_upgrade with
      | some d => some (.ok (UpgradeMode.cached E to_upgrade d))
      | none =>
        match E.upgrade_request to_upgrade with
        | none => some (UpgradeMode.default_upgrade E to_upgrade)
        | some request2 => some (.ok (.UpgradeMissing to_upgrade (refreshF request2)))
    | .ok (.UpToDate (.Cached request_result _)) =>
      match E.lookup_upgrade to_upgrade cache request_result with
      | .error ce => some (.error (.Cache ce))
      | .ok upg => some (.ok (UpgradeMode.cached E to_upgrade upg))
    | .ok (.Uncached refresh_future) => some (.ok (.UpgradeMissing to_upgrade refresh_future))
    | .ok (.Outdated (.MarkedAbsent _) refresh_future)
    | .ok (.Outdated .DeducedAbsent refresh_future) =>
      match E.default_upgrade with
      | some d => some (.ok (.UpgradeOutdated to_upgrade d refresh_future))
      | none =>
        match E.upgrade_request to_upgrade with
        | none => some (UpgradeMode.default_upgrade E to_upgrade)
        | some request2 => some (.ok (.UpgradeMissing to_upgrade (refreshF request2)))
    | .ok (.Outdated (.Cached request_result _) refresh_future) =>
      match E.lookup_upgrade to_upgrade cache request_result with
      | .error ce => some (.error (.Cache ce))
      | .ok upg => some (.ok (.UpgradeOutdated to_upgrade upg refresh_future))

/-- A concrete upgrade edge over `Nat` data, used to instantiate theorems. -/
def edgeW : UpgradeEdge Nat Nat Nat Nat Nat Nat Unit Unit :=
  { upgrade_request := fun s => some (s + 1)
    default_upgrade := some 3
    lookup_upgrade := fun _ _ r => .ok r
    upgrade := fun s u => (s + u, s)
    downgrade := fun i u => (i, u) }

/-- Level lengths, from gdcf/src/model/level.rs lines 14-47. -/
inductive LevelLength where
  | Tiny
  | Short
  | Medium
  | Long
  | ExtraLong
  | Unknown
  deriving DecidableEq

/-- Demon difficulties, from gdcf/src/model/level.rs lines 112-145. -/
inductive DemonRating where
  | Easy
  | Medium
  | Hard
  | Insane
  | Extreme
  | Unknown
  deriving DecidableEq

/-- Level ratings, from gdcf/src/model/level.rs lines 53-107. -/
inductive LevelRating where
  | Auto
  | Demon (rating : DemonRating)
  | NotAvailable
  | Easy
  | Normal
  | Hard
  | Harder
  | Insane
  | Unknown
  deriving DecidableEq

set_option linter.dupNamespace false in
/-- Featured state of a level, from gdcf/src/model/level.rs lines 150-162. -/
inductive Featured where
  | NotFeatured
  | Unfeatured
  | Featured (weight : Nat)
  deriving DecidableEq

/-- Level copy passwords, variants from gdcf_parse/src/level.rs lines 68-86. -/
inductive Password where
  | NoCopy
  | FreeCopy
  | PasswordCopy (password : String)
  deriving DecidableEq

/--
`PartialLevel<Song, User>`: the field list is fixed by the exhaustive
destructuring in gdcf/src/upgrade/level.rs lines 265-291 (the defining
crate gdcf_model is not among the provided sources; for the non-generic
fields the payload types follow gdcf/src/model/level.rs).
-/
structure PartialLevel (Song User : Type) where
  level_id : Nat
  name : String
  description : Option String
  version : Nat
  creator : User
  difficulty : LevelRating
  downloads : Nat
  main_song : Option Nat
  gd_version : GameVersion
  likes : Int
  length : LevelLength
  stars : Nat
  featured : Featured
  index_31 : Option String
  copy_of : Option Nat
  coin_amount : Nat
  coins_verified : Bool
  stars_requested : Option Nat
  index_40 : Option String
  is_epic : Bool
  index_43 : String
  object_amount : Option Nat
  index_46 : String
  index_47 : String
  custom_song : Song
  deriving DecidableEq

/--
`Level<Song, User>`: the field list is fixed by the destructurings in
gdcf/src/upgrade/level.rs lines 30-37 and 392-399.
-/
structure Level (Song User : Type) where
  base : PartialLevel Song User
  level_data : String
  password : Password
  time_since_update : String
  time_since_upload : String
  index_36 : String
  deriving DecidableEq

/--
`change_partial_level_song` (gdcf/src/upgrade/level.rs lines 261-324):
replaces `custom_song` with the new value, moves every other field across
unchanged, and returns the displaced old song as the second component.
-/
def changePartialLevelSong {OldSong NewSong User : Type}
    (partial_level : PartialLevel OldSong User) (new_song : NewSong) :
    PartialLevel NewSong User × OldSong :=
  ( { level_id := partial_level.level_id
      name := partial_level.name
      description := partial_level.description
      version := partial_level.version
      creator := partial_level.creator
      difficulty := partial_level.difficulty
      downloads := partial_level.downloads
      main_song := partial_level.main_song
      gd_version := partial_level.gd_version
      likes := partial_level.likes
      length := partial_level.length
      stars := partial_level.stars
      featured := partial_level.featured
      index_31 := partial_level.index_31
      copy_of := partial_level.copy_of
      coin_amount := partial_level.coin_amount
      coins_verified := partial_level.coins_verified
      stars_requested := partial_level.stars_requested
      index_40 := partial_level.index_40
      is_epic := partial_level.is_epic
      index_43 := partial_level.index_43
      object_amount := partial_level.object_amount
      index_46 := partial_level.index_46
      index_47 := partial_level.index_47
      custom_song := new_song },
    partial_level.custom_song )

/--
`change_partial_level_user` (gdcf/src/upgrade/level.rs lines 326-389):
replaces `creator` with the new value, moves every other field across
unchanged, and returns the displaced old user as the second component.
-/
def changePartialLevelUser {Song OldUser NewUser : Type}
    (partial_level : PartialLevel Song OldUser) (new_user : NewUser) :
    PartialLevel Song NewUser × OldUser :=
  ( { level_id := partial_level.level_id
      name := partial_level.name
      description := partial_level.description
      version := partial_level.version
      creator := new_user
      difficulty := partial_level.difficulty
      downloads := partial_level.downloads
      main_song := partial_level.main_song
      gd_version := partial_level.gd_version
      likes := partial_level.likes
      length := partial_level.length
      stars := partial_level.stars
      featured := partial_level.featured
      index_31 := partial_level.index_31
      copy_of := partial_level.copy_of
      coin_amount := partial_level.coin_amount
      coins_verified := partial_level.coins_verified
      stars_requested := partial_level.stars_requested
      index_40 := partial_level.index_40
      is_epic := partial_level.is_epic
      index_43 := partial_level.index_43
      object_amount := partial_level.object_amount
      index_46 := partial_level.index_46
      index_47 := partial_level.index_47
      custom_song := partial_level.custom_song },
    partial_level.creator )

/-- `change_level_song` (gdcf/src/upgrade/level.rs lines 416-439). -/
def changeLevelSong {OldSong NewSong User : Type}
    (level : Level OldSong User) (new_song : NewSong) : Level NewSong User × OldSong :=
  ( { base := (changePartialLevelSong level.base new_song).1
      level_data := level.level_data
      password := level.password
      time_since_update := level.time_since_update
      time_since_upload := level.time_since_upload
      index_36 := level.index_36 },
    (changePartialLevelSong level.base new_song).2 )

/-- `change_level_user` (gdcf/src/upgrade/level.rs lines 391-414). -/
def changeLevelUser {Song OldUser NewUser : Type}
    (level : Level Song OldUser) (new_user : NewUser) : Level Song NewUser × OldUser :=
  ( { base := (changePartialLevelUser level.base new_user).1
      level_data := level.level_data
      password := level.password
      time_since_update := level.time_since_update
      time_since_upload := level.time_since_upload
      index_36 := level.index_36 },
    (changePartialLevelUser level.base new_user).2 )

/--
`Upgrade::upgrade` of the `PartialLevel → Level` edge
(gdcf/src/upgrade/level.rs lines 29-50): the full `Level` obtained from the
level request is opened up, its body fields are re-attached to the base
being upgraded, and the request result's own base is returned as the carry.
-/
def upgradePartialLevelToLevel {Song User : Type}
    (self : PartialLevel Song User) (upg : Level Song User) :
    Level Song User × PartialLevel Song User :=
  ( { base := self
      level_data := upg.level_data
      password := upg.password
      time_since_update := upg.time_since_update
      time_since_upload := upg.time_since_upload
      index_36 := upg.index_36 },
    upg.base )

/--
`Upgrade::downgrade` of the `PartialLevel → Level` edge
(gdcf/src/upgrade/level.rs lines 52-54): `(downgrade, upgraded)`.
-/
def downgradePartialLevelToLevel {Song User : Type}
    (upgraded : Level Song User) (dg : PartialLevel Song User) :
    PartialLevel Song User × Level Song User :=
  (dg, upgraded)

/-- A concrete `PartialLevel` over `Nat` parameters, for instantiations. -/
def plA : PartialLevel Nat Nat :=
  { level_id := 1
    name := ""
    description := none
    version := 1
    creator := 0
    difficulty := .NotAvailable
    downloads := 0
    main_song := none
    gd_version := .Unknown
    likes := 0
    length := .Tiny
    stars := 0
    featured := .NotFeatured
    index_31 := none
    copy_of := none
    coin_amount := 0
    coins_verified := false
    stars_requested := none
    index_40 := none
    is_epic := false
    index_43 := ""
    object_amount := none
    index_46 := ""
    index_47 := ""
    custom_song := 0 }

/-- `plA` with a different level id. -/
def plB : PartialLevel Nat Nat :=
  { plA with level_id := 2 }

/-- A concrete `Level` whose base is `plB`. -/
def lvlB : Level Nat Nat :=
  { base := plB
    level_data := ""
    password := .NoCopy
    time_since_update := ""
    time_since_upload := ""
    index_36 := "" }

/--
Modelled from the spec: the drained pagination stream (the `GdcfStream`
poll loop lives in gdcf/src/future.rs, which is not among the provided
sources; spec section 4.F and scenario S6).  One list element is emitted
per resolved page; an error is propagated as the last element and
terminates the stream; an empty page terminates the stream without being
emitted; when the stored next request is `None` the stream ends after the
current page; otherwise the stream advances with `proc` applied to the next
request.  `fuel` bounds the number of polls so that the unfolding is a
total function.
-/
def streamRun {Req Page E : Type} (proc : Req → Except E Page) (nxt : Req → Option Req)
    (isEmpty : Page → Bool) : Nat → Except E Page → Option Req → List (Except E Page)
  | 0, _, _ => []
  | fuel + 1, current, next_request =>
    match current with
    | .error e => [.error e]
    | .ok page =>
      if isEmpty page then []
      else
        .ok page ::
          (match next_request with
          | none => []
          | some r => streamRun proc nxt isEmpty fuel (proc r) (nxt r))

/--
`ProcessRequest::paginate` (gdcf/src/lib.rs lines 173-187): the stream
starts from `next_request := request.next()` and
`current_request := process_request(request)`, here run to a list of
emitted items via `streamRun`.
-/
def paginate {Req Page E : Type} (proc : Req → Except E Page) (nxt : Req → Option Req)
    (isEmpty : Page → Bool) (fuel : Nat) (request : Req) : List (Except E Page) :=
  streamRun proc nxt isEmpty fuel (proc request) (nxt request)

/--
Shape of the secondary-store loop: some count `k` of leading secondaries is
committed in order; the loop reports success exactly when it ran to the end
(`k` equals the number of secondaries), and on failure strictly fewer than
all secondaries were committed.
-/
lemma storeSecondaries_shape {K V CErr M : Type} (errF : StoreEvent K V → Option CErr)
    (metaF : Nat → M) :
    ∀ (secs : List Secondary) (trace : List (StoreEvent K V)),
      ∃ k, k ≤ secs.length
        ∧ (storeSecondaries errF metaF secs trace).1
            = trace ++ List.take k (secs.map secondaryEvent)
        ∧ ((storeSecondaries errF metaF secs trace).2 = none → k = secs.length)
        ∧ ((storeSecondaries errF metaF secs trace).2 ≠ none → k < secs.length)
  | [], trace => ⟨0, by simp [storeSecondaries]⟩
  | s :: rest, trace => by
    cases h : errF (secondaryEvent s) with
    | some e =>
      refine ⟨0, by simp, ?_, ?_, ?_⟩ <;> simp [storeSecondaries, applyStore, h]
    | none =>
      obtain ⟨k, hk, h1, h2, h3⟩ :=
        storeSecondaries_shape errF metaF rest (trace ++ [secondaryEvent s])
      have hunf : storeSecondaries errF metaF (s :: rest) trace
          = storeSecondaries errF metaF rest (trace ++ [secondaryEvent s]) := by
        simp [storeSecondaries, applyStore, h]
      refine ⟨k + 1, by simp only [List.length_cons]; omega, ?_, ?_, ?_⟩
      · rw [hunf]
        simp [h1, List.append_assoc]
      · rw [hunf]
        intro hnone
        have := h2 hnone
        simp only [List.length_cons]
        omega
      · rw [hunf]
        intro hsome
        have := h3 hsome
        simp only [List.length_cons]
        omega

/--
When every secondary store succeeds, the loop commits exactly the
per-secondary events, in the order of the response.
-/
lemma storeSecondaries_ok {K V CErr M : Type} (errF : StoreEvent K V → Option CErr)
    (metaF : Nat → M) :
    ∀ (secs : List Secondary) (trace : List (StoreEvent K V)),
      (∀ s ∈ secs, errF (secondaryEvent s) = none) →
      storeSecondaries errF metaF secs trace = (trace ++ secs.map secondaryEvent, none)
  | [], trace, _ => by simp [storeSecondaries]
  | s :: rest, trace, h => by
    have hs : errF (secondaryEvent s) = none := h s (by simp)
    have ih := storeSecondaries_ok errF metaF rest (trace ++ [secondaryEvent s])
      (fun x hx => h x (by simp [hx]))
    simp [storeSecondaries, applyStore, hs, ih]

/--
Claim C3: in every execution of a refresh for a `More(result, secondaries)`
response, each secondary is stored under its own key (songs by `song_id`,
creators by `user_id`, `Missing` variants via `mark_absent`) before the
primary result is stored under the request key, and the primary store never
precedes any secondary store: the committed trace is always a prefix of the
per-secondary events, followed by the primary store exactly when all
secondaries committed and the primary store itself succeeds; in the
all-stores-succeed case the trace is exactly the secondary events followed
by the primary store and the task resolves to `Cached`.
-/
theorem refresh_secondaries_before_primary {K V AErr CErr M : Type}
    (is_no_result : AErr → Bool) (errF : StoreEvent K V → Option CErr) (metaF : Nat → M)
    (key : K) (w : V) (excess : List Secondary) (trace : List (StoreEvent K V)) :
    (∃ k, k ≤ excess.length
      ∧ (refresh is_no_result errF metaF key (.ok (.More w excess)) trace).2
          = trace ++ List.take k (excess.map secondaryEvent)
            ++ (if k = excess.length ∧ (errF (.storePrimary key w)).isNone = true
                then [StoreEvent.storePrimary key w] else []))
    ∧ ((∀ s ∈ excess, errF (secondaryEvent s) = none) →
        errF (.storePrimary key w) = none →
        (refresh is_no_result errF metaF key (.ok (.More w excess)) trace).2
            = trace ++ excess.map secondaryEvent ++ [StoreEvent.storePrimary key w]
          ∧ (refresh is_no_result errF metaF key (.ok (.More w excess)) trace).1
            = .ok (.Cached w (metaF (trace.length + excess.length)))) := by
  constructor
  · obtain ⟨k, hk, h1, h2, h3⟩ := storeSecondaries_shape errF metaF excess trace
    rcases hss : storeSecondaries errF metaF excess trace with ⟨tr2, oerr⟩
    rw [hss] at h1 h2 h3
    simp only at h1 h2 h3
    refine ⟨k, hk, ?_⟩
    cases oerr with
    | some ce =>
      have hlt : k < excess.length := h3 (by simp)
      have hcond : ¬(k = excess.length ∧ (errF (.storePrimary key w)).isNone = true) := by
        rintro ⟨h4, _⟩
        omega
      rw [if_neg hcond]
      simp [refresh, hss, h1]
    | none =>
      have hkeq : k = excess.length := h2 rfl
      cases hp : errF (.storePrimary key w) with
      | none =>
        rw [if_pos ⟨hkeq, by simp [hp]⟩]
        simp [refresh, hss, applyStore, hp, h1, List.append_assoc]
      | some ce =>
        have hcond : ¬(k = excess.length ∧ (some ce : Option CErr).isNone = true) := by
          simp
        rw [if_neg hcond]
        simp [refresh, hss, applyStore, hp, h1]
  · intro hall hp
    have hss := storeSecondaries_ok errF metaF excess trace hall
    constructor <;> simp [refresh, hss, applyStore, hp, List.append_assoc]

/--
Witness for C3: a concrete `More` refresh with one missing-creator
tombstone and one song commits the two secondary stores, in response
order, before the primary store.
-/
theorem refresh_secondaries_before_primary_witness :
    (refresh (fun _ : Unit => false) (fun _ => (none : Option Unit)) (fun n => n) (0 : Nat)
        (.ok (.More 9 [Secondary.MissingCreator 5, Secondary.NewgroundsSong ⟨2, ""⟩])) []).2
      = [StoreEvent.markAbsentCreator 5, StoreEvent.storeSong 2 ⟨2, ""⟩,
          StoreEvent.storePrimary 0 9] :=
  (((refresh_secondaries_before_primary (fun _ : Unit => false) (fun _ => (none : Option Unit))
      (fun n => n) 0 9 [Secondary.MissingCreator 5, Secondary.NewgroundsSong ⟨2, ""⟩] []).2
    (fun _ _ => rfl) rfl).1).trans rfl

/--
Claim C2: when the api client fails with an error whose `is_no_result()`
holds, `refresh` recovers by calling `mark_absent` on the request key and
resolves to `MarkedAbsent(meta)` (assuming the tombstone store itself
succeeds); for every other api error `refresh` fails with exactly that
error and commits no cache write.
-/
theorem refresh_no_result_recovery {K V AErr CErr M : Type}
    (is_no_result : AErr → Bool) (errF : StoreEvent K V → Option CErr) (metaF : Nat → M)
    (key : K) (err : AErr) (trace : List (StoreEvent K V))
    (hmk : errF (.markAbsentPrimary key) = none) :
    (is_no_result err = true →
      refresh is_no_result errF metaF key (Except.error err : Except AErr (Response V)) trace
        = (.ok (.MarkedAbsent (metaF trace.length)),
            trace ++ [StoreEvent.markAbsentPrimary key]))
    ∧ (is_no_result err = false →
      refresh is_no_result errF metaF key (Except.error err : Except AErr (Response V)) trace
        = (.error (.Api err), trace)) := by
  constructor <;> intro h <;> simp [refresh, h, applyStore, hmk]

/--
Witness for C2: both branches at concrete inputs; `AErr := Bool` with
`is_no_result` the identity.
-/
theorem refresh_no_result_recovery_witness :
    (refresh (fun b => b) (fun _ => (none : Option Unit)) (fun n => n) (0 : Nat)
        (Except.error true : Except Bool (Response Nat)) []
      = (.ok (.MarkedAbsent 0), [StoreEvent.markAbsentPrimary 0]))
    ∧ (refresh (fun b => b) (fun _ => (none : Option Unit)) (fun n => n) (0 : Nat)
        (Except.error false : Except Bool (Response Nat)) []
      = (.error (.Api false), [])) :=
  ⟨(refresh_no_result_recovery (fun b => b) (fun _ => (none : Option Unit)) (fun n => n)
      0 true [] rfl).1 rfl,
    (refresh_no_result_recovery (fun b => b) (fun _ => (none : Option Unit)) (fun n => n)
      0 false [] rfl).2 rfl⟩

/--
Claim C1 (evaluation of the code at the failing input): `Gdcf::process`
never reads `force_refresh`, so a request with `force_refresh = true`
whose cache entry is a fresh `Cached` value is answered `UpToDate(entry)`
with no refresh task, where the claim's decision table requires
`Outdated(entry, refresh)`.
-/
theorem process_ignores_force_refresh :
    process_request (fun m => m)
        (fun _ : RequestState Unit =>
          (Except.ok (CacheEntry.Cached 5 false) : Except Unit (CacheEntry Nat Bool)))
        (fun _ => ()) ⟨(), true⟩
      = .ok (.UpToDate (.Cached 5 false))
    ∧ process_request (fun m => m)
        (fun _ : RequestState Unit =>
          (Except.ok (CacheEntry.Cached 5 false) : Except Unit (CacheEntry Nat Bool)))
        (fun _ => ()) ⟨(), true⟩
      ≠ .ok (.Outdated (.Cached 5 false) ()) := by
  constructor
  · rfl
  · intro h
    exact absurd (Except.ok.inj h) (by decide)

/--
Counterexample for C7: two concurrent requests for the same fingerprint
against a `Missing` cache entry each spawn their own refresh task, so two
`ApiClient::make` invocations are observed where the claim requires
exactly one.
-/
theorem no_refresh_dedup_cex :
    concurrentMakeInvocations (fun m => m)
        (fun _ : RequestState Unit =>
          (Except.ok CacheEntry.Missing : Except Unit (CacheEntry Nat Bool)))
        (fun _ => ()) ⟨(), false⟩ 2 = 2
    ∧ (2 : Nat) ≠ 1 :=
  ⟨rfl, by decide⟩

/--
Claim C7 (amended): the processor performs no per-fingerprint
deduplication — `Gdcf` holds no in-flight state — so each of `n`
concurrent requests whose lookup reports `Missing` spawns its own refresh
task, and `n` `ApiClient::make` invocations are observed.
-/
theorem no_refresh_dedup {P T M CErr F : Type} (isExp : M → Bool)
    (lookup_request : RequestState P → Except CErr (CacheEntry T M))
    (make_future : RequestState P → F) (request : RequestState P) (n : Nat)
    (h : lookup_request request = .ok .Missing) :
    concurrentMakeInvocations isExp lookup_request make_future request n = n := by
  have h1 : refreshTasksSpawned (process_request isExp lookup_request make_future request)
      = 1 := by
    simp [process_request, process, h, refreshTasksSpawned]
  simp [concurrentMakeInvocations, List.map_replicate, h1, List.sum_replicate, smul_eq_mul]

/-- Witness for the amended C7, at three concurrent requests. -/
theorem no_refresh_dedup_witness :
    concurrentMakeInvocations (fun m => m)
        (fun _ : RequestState Unit =>
          (Except.ok CacheEntry.Missing : Except Unit (CacheEntry Nat Bool)))
        (fun _ => ()) ⟨(), false⟩ 3 = 3 :=
  no_refresh_dedup (fun m => m)
    (fun _ : RequestState Unit =>
      (Except.ok CacheEntry.Missing : Except Unit (CacheEntry Nat Bool)))
    (fun _ => ()) ⟨(), false⟩ 3 rfl

/--
Claim C4: when the processor reports an up-to-date absent entry
(`MarkedAbsent` or `DeducedAbsent`) for an upgrade edge's secondary
request, `UpgradeMode::new` resolves by the claimed trichotomy: a present
`default_upgrade()` yields `UpgradeCached` with the default spliced in; no
default but a present `upgrade_request()` yields `UpgradeMissing` with a
fresh unconditional refresh of that request; no default and no request
fails with `ConsistencyAssumptionViolated`.
-/
theorem upgrade_mode_absent_resolution {S Carry Into Upg Req ReqRes Cch AErr CErr M Fut : Type}
    (E : UpgradeEdge S Carry Into Upg Req ReqRes Cch CErr) (to_upgrade : S) (cache : Cch)
    (proc : Req → Except CErr (GdcfFuture ReqRes M Fut))
    (refreshF : Req → Fut) (set_force_refresh : Req → Req) (force_refresh : Bool)
    (r0 : Req) (m : M) (entry : CacheEntry ReqRes M)
    (hreq : E.upgrade_request to_upgrade = some r0)
    (hproc : proc (if force_refresh then set_force_refresh r0 else r0)
      = .ok (.UpToDate entry))
    (habs : entry = .MarkedAbsent m ∨ entry = .DeducedAbsent) :
    (UpgradeMode.new E to_upgrade cache proc refreshF set_force_refresh force_refresh
        : Option (Except (GdcfError AErr CErr) (UpgradeMode S Upg Into Fut)))
      = some (match E.default_upgrade with
          | some d => .ok (.UpgradeCached (E.upgrade to_upgrade d).1)
          | none =>
            match E.upgrade_request to_upgrade with
            | some r => .ok (.UpgradeMissing to_upgrade (refreshF r))
            | none => .error .ConsistencyAssumptionViolated) := by
  rcases habs with h | h <;> subst h <;>
    · simp only [UpgradeMode.new, hreq, hproc, UpgradeMode.cached]
      cases E.default_upgrade <;> simp [hreq]

/--
Witness for C4: a concrete edge with a default upgrade; the default is
spliced into the base object.
-/
theorem upgrade_mode_absent_resolution_witness :
    (UpgradeMode.new edgeW 5 ()
        (fun _ => Except.ok (GdcfFuture.UpToDate (CacheEntry.MarkedAbsent 0)))
        (fun r => r) (fun r => r) false
        : Option (Except (GdcfError Unit Unit) (UpgradeMode Nat Nat Nat Nat)))
      = some (.ok (.UpgradeCached 8)) :=
  (upgrade_mode_absent_resolution edgeW 5 ()
    (fun _ => Except.ok (GdcfFuture.UpToDate (CacheEntry.MarkedAbsent 0)))
    (fun r => r) (fun r => r) false 6 0 (CacheEntry.MarkedAbsent 0)
    rfl rfl (Or.inl rfl)).trans rfl

/--
Counterexample for C5: on the `PartialLevel → Level` upgrade edge the
round trip fails when the upgrade value's base differs from the base being
upgraded: `downgrade` returns the request result's base (the carry), not
the original `from`, and the `Level` component keeps the spliced base.
-/
theorem upgrade_roundtrip_cex :
    downgradePartialLevelToLevel (upgradePartialLevelToLevel plA lvlB).1
        (upgradePartialLevelToLevel plA lvlB).2
      ≠ (plA, lvlB) := by
  decide

/--
Claim C5 (amended): the upgrade/downgrade round trip holds exactly on the
four pure splice helpers (`change_partial_level_song`,
`change_partial_level_user`, `change_level_song`, `change_level_user`),
which back all the song/creator/user upgrade edges; for the
`PartialLevel → Level` edge it holds exactly when the upgrade value's base
equals the base being upgraded.
-/
theorem upgrade_downgrade_roundtrip :
    (∀ (Song User NewSong : Type) (pl : PartialLevel Song User) (v : NewSong),
      changePartialLevelSong (changePartialLevelSong pl v).1 (changePartialLevelSong pl v).2
        = (pl, v))
    ∧ (∀ (Song User NewUser : Type) (pl : PartialLevel Song User) (v : NewUser),
      changePartialLevelUser (changePartialLevelUser pl v).1 (changePartialLevelUser pl v).2
        = (pl, v))
    ∧ (∀ (Song User NewSong : Type) (lv : Level Song User) (v : NewSong),
      changeLevelSong (changeLevelSong lv v).1 (changeLevelSong lv v).2 = (lv, v))
    ∧ (∀ (Song User NewUser : Type) (lv : Level Song User) (v : NewUser),
      changeLevelUser (changeLevelUser lv v).1 (changeLevelUser lv v).2 = (lv, v))
    ∧ (∀ (Song User : Type) (pl : PartialLevel Song User) (v : Level Song User),
      v.base = pl →
      downgradePartialLevelToLevel (upgradePartialLevelToLevel pl v).1
          (upgradePartialLevelToLevel pl v).2
        = (pl, v)) := by
  refine ⟨?_, ?_, ?_, ?_, ?_⟩
  · intro Song User NewSong pl v
    rfl
  · intro Song User NewUser pl v
    rfl
  · intro Song User NewSong lv v
    rfl
  · intro Song User NewUser lv v
    rfl
  · intro Song User pl v h
    subst h
    rfl

/--
Witness for the amended C5: the song splice round trip at a concrete
partial level, and the `PartialLevel → Level` round trip at a pair whose
bases agree.
-/
theorem upgrade_downgrade_roundtrip_witness :
    changePartialLevelSong (changePartialLevelSong plA 3).1 (changePartialLevelSong plA 3).2
      = (plA, 3)
    ∧ downgradePartialLevelToLevel (upgradePartialLevelToLevel plB lvlB).1
        (upgradePartialLevelToLevel plB lvlB).2
      = (plB, lvlB) :=
  ⟨upgrade_downgrade_roundtrip.1 Nat Nat Nat plA 3,
    upgrade_downgrade_roundtrip.2.2.2.2 Nat Nat plB lvlB rfl⟩

/--
Claim C9: `change_partial_level_song` replaces exactly the `custom_song`
field and `change_partial_level_user` replaces exactly the `creator`
field; every other field is moved across unchanged, and the displaced old
value is returned as the second component.
-/
theorem change_functions_frame {Song User NewSong NewUser : Type}
    (pl : PartialLevel Song User) (new_song : NewSong) (new_user : NewUser) :
    changePartialLevelSong pl new_song
      = ({ pl with custom_song := new_song }, pl.custom_song)
    ∧ changePartialLevelUser pl new_user
      = ({ pl with creator := new_user }, pl.creator) :=
  ⟨rfl, rfl⟩

/--
Claim C10: converting a byte to a `GameVersion` and back is the identity;
10 maps to `Unknown` (which converts back to 10) and every other byte `v`
maps to `Version { major := v / 10, minor := v % 10 }`.
-/
theorem gameVersion_u8_roundtrip (v : Nat) (hv : v < 256) :
    GameVersion.intoU8 (GameVersion.fromU8 v) = v
    ∧ (v = 10 → GameVersion.fromU8 v = GameVersion.Unknown)
    ∧ (v ≠ 10 → GameVersion.fromU8 v = GameVersion.Version (v % 10) (v / 10)) := by
  refine ⟨?_, fun h => by simp [GameVersion.fromU8, h],
    fun h => by simp [GameVersion.fromU8, h]⟩
  by_cases h : v = 10
  · subst h
    rfl
  · simp only [GameVersion.fromU8, GameVersion.intoU8, h, if_false]
    omega

/-- Witness for C10 at the bytes 57 and 10. -/
theorem gameVersion_u8_roundtrip_witness :
    GameVersion.intoU8 (GameVersion.fromU8 57) = 57
    ∧ GameVersion.fromU8 10 = GameVersion.Unknown :=
  ⟨(gameVersion_u8_roundtrip 57 (by decide)).1,
    (gameVersion_u8_roundtrip 10 (by decide)).2.1 rfl⟩

/--
Claim C8: `parse_description` never reports an error: it always returns
`Some`, the raw input string unchanged when base64 decoding of the
url-encoded input fails, and the decoded string when decoding succeeds.
-/
theorem parse_description_lenient {DecodeErr : Type} (encode_url : String → String)
    (b64_decode_string : String → Except DecodeErr String) (value : String) :
    (∃ s, parse_description encode_url b64_decode_string value = some s)
    ∧ (∀ e, b64_decode_string (encode_url value) = .error e →
        parse_description encode_url b64_decode_string value = some value)
    ∧ (∀ f, b64_decode_string (encode_url value) = .ok f →
        parse_description encode_url b64_decode_string value = some f) := by
  refine ⟨?_, fun e h => by simp [parse_description, h],
    fun f h => by simp [parse_description, h]⟩
  unfold parse_description
  cases b64_decode_string (encode_url value) <;> exact ⟨_, rfl⟩

/--
Unfolding lemma for the pagination stream: along a chain of requests whose
first `k` pages resolve successfully, are non-empty, and have a successor
request, the stream emits those `k` pages and continues from the `k`-th
request with the remaining fuel.
-/
lemma streamRun_chain {Req Page E : Type} (proc : Req → Except E Page) (nxt : Req → Option Req)
    (isEmpty : Page → Bool) (chain : Nat → Req) (page : Nat → Page) :
    ∀ (k fuel : Nat),
      (∀ i, i < k → proc (chain i) = .ok (page i)) →
      (∀ i, i < k → isEmpty (page i) = false) →
      (∀ i, i < k → nxt (chain i) = some (chain (i + 1))) →
      k ≤ fuel →
      streamRun proc nxt isEmpty fuel (proc (chain 0)) (nxt (chain 0))
        = ((List.range k).map fun i => Except.ok (page i))
          ++ streamRun proc nxt isEmpty (fuel - k) (proc (chain k)) (nxt (chain k))
  | 0, fuel, _, _, _, _ => by simp
  | k + 1, fuel, hok, hne, hnx, hfuel => by
    have ih := streamRun_chain proc nxt isEmpty chain page k fuel
      (fun i hi => hok i (by omega)) (fun i hi => hne i (by omega))
      (fun i hi => hnx i (by omega)) (by omega)
    obtain ⟨m, hm⟩ : ∃ m, fuel - k = m + 1 := ⟨fuel - (k + 1), by omega⟩
    have hm2 : fuel - (k + 1) = m := by omega
    have h1 := hok k (by omega)
    have h2 := hne k (by omega)
    have h3 := hnx k (by omega)
    rw [ih, hm, h1, h3, hm2]
    simp [streamRun, h2, List.range_succ]

/--
Claim C6: the pagination stream emits one item per resolved page and
terminates exactly at the first page whose request has no successor, at
the first empty page (not emitted), or at the first error (emitted, then
the stream ends).
-/
theorem paginate_termination {Req Page E : Type} (proc : Req → Except E Page)
    (nxt : Req → Option Req) (isEmpty : Page → Bool)
    (chain : Nat → Req) (page : Nat → Page) (k fuel : Nat)
    (hok : ∀ i, i < k → proc (chain i) = .ok (page i))
    (hne : ∀ i, i < k → isEmpty (page i) = false)
    (hnx : ∀ i, i < k → nxt (chain i) = some (chain (i + 1)))
    (hfuel : k < fuel) :
    (proc (chain k) = .ok (page k) → isEmpty (page k) = false → nxt (chain k) = none →
      paginate proc nxt isEmpty fuel (chain 0)
        = (List.range (k + 1)).map fun i => Except.ok (page i))
    ∧ (proc (chain k) = .ok (page k) → isEmpty (page k) = true →
      paginate proc nxt isEmpty fuel (chain 0)
        = (List.range k).map fun i => Except.ok (page i))
    ∧ (∀ e, proc (chain k) = .error e →
      paginate proc nxt isEmpty fuel (chain 0)
        = ((List.range k).map fun i => Except.ok (page i)) ++ [Except.error e]) := by
  have base := streamRun_chain proc nxt isEmpty chain page k fuel hok hne hnx (by omega)
  obtain ⟨m, hm⟩ : ∃ m, fuel - k = m + 1 := ⟨fuel - (k + 1), by omega⟩
  refine ⟨fun h1 h2 h3 => ?_, fun h1 h2 => ?_, fun e h1 => ?_⟩
  · simp only [paginate]
    rw [base, hm, h1, h3]
    simp [streamRun, h2, List.range_succ]
  · simp only [paginate]
    rw [base, hm, h1]
    simp [streamRun, h2]
  · simp only [paginate]
    rw [base, hm, h1]
    simp [streamRun]

/--
Witness for C6, reproducing scenario S6: page 0 is non-empty, page 1 is
empty, so exactly one item is emitted and the stream terminates.
-/
theorem paginate_termination_witness :
    paginate (fun r : Nat => (Except.ok (if r = 0 then [1] else []) : Except Unit (List Nat)))
        (fun r => some (r + 1)) (fun p => p.isEmpty) 5 0
      = [Except.ok [1]] := by
  have h := paginate_termination
    (fun r : Nat => (Except.ok (if r = 0 then [1] else []) : Except Unit (List Nat)))
    (fun r => some (r + 1)) (fun p => p.isEmpty)
    (fun i => i) (fun i => if i = 0 then [1] else []) 1 5
    (fun i _ => rfl)
    (fun i hi => by
      have h0 : i = 0 := by omega
      subst h0
      rfl)
    (fun i _ => rfl)
    (by omega)
  exact (h.2.1 rfl rfl).trans rfl

/-- Witness for C8: the failing-decoder and succeeding-decoder cases. -/
theorem parse_description_lenient_witness :
    parse_description id (fun _ => (Except.error () : Except Unit String)) ("abc")
      = some ("abc")
    ∧ parse_description id (fun s => (Except.ok s : Except Unit String)) ("abc")
      = some ("abc") :=
  ⟨(parse_description_lenient id (fun _ => (Except.error () : Except Unit String))
      ("abc")).2.1 () rfl,
    (parse_description_lenient id (fun s => (Except.ok s : Except Unit String))
      ("abc")).2.2 ("abc") rfl⟩

end Gdcf
